import Mathlib

/-!
Verification of the Vulkan matrix-multiplication backend
(`aten/src/ATen/native/vulkan/ops/Mm.cpp`).

The development shallowly embeds the data model and the operations of that
file: tensors are modelled by their metadata (sizes, device, dtype,
gradient flag, quantization flag of the backing GPU image, GPU memory
layout), the staged packing copies are modelled as functional updates of a
flat buffer, and the fallible C++ paths (`TORCH_CHECK` /
`TORCH_INTERNAL_ASSERT`) are modelled with `Except`.

Naming follows the C++ source.  `Layout::Parameter` uses index 0 for
height and 1 for width; `Layout::BatchMatrices` uses 0 for batch, 1 for
height and 2 for width (see the comment at the rank-3 check in
`pack_weights`: "3 dimensions: batch, height, width").
-/

namespace ops

/-- Device placement of a tensor: host (CPU), the Vulkan device, or any
other backend (e.g. CUDA), which this core never accepts. -/
inductive DeviceType
  | cpu
  | vulkan
  | other
deriving DecidableEq, Repr

/-- The dtypes distinguished by `Mm.cpp`: `kFloat`, the two quantized
8-bit kinds `kQInt8` / `kQUInt8`, and anything else. -/
inductive ScalarType
  | Float
  | QInt8
  | QUInt8
  | Other
deriving DecidableEq, Repr

/-- The GPU memory-layout tag of a Vulkan image
(`api::GPUMemoryLayout`). -/
inductive GPUMemoryLayout
  | width_packed
  | height_packed
  | channels_packed
deriving DecidableEq, Repr

/-- Metadata of an `at::Tensor` as read by `Mm.cpp`: sizes, device,
dtype, the autograd flag, plus — meaningful when the tensor is resident
on the Vulkan device — the `is_quantized` flag and the memory layout of
the backing `vTensor`. -/
structure Tensor where
  sizes : List Nat
  device : DeviceType
  dtype : ScalarType
  requires_grad : Bool
  v_is_quantized : Bool
  vlayout : GPUMemoryLayout
deriving DecidableEq, Repr

/-- `Tensor::ndimension()` / `Tensor::dim()`. -/
def Tensor.dim (t : Tensor) : Nat := t.sizes.length

/-- `Tensor::size(i)` (all indices used by `Mm.cpp` are in bounds when
read, so the default value is never observable through the modelled
paths). -/
def Tensor.size (t : Tensor) (i : Nat) : Nat := t.sizes.getD i 0

/-- `Tensor::is_cpu()`. -/
def Tensor.is_cpu (t : Tensor) : Bool := t.device = DeviceType.cpu

/-- `Tensor::is_vulkan()`. -/
def Tensor.is_vulkan (t : Tensor) : Bool := t.device = DeviceType.vulkan

/-- `Tensor::is_quantized()` is dispatch-key based: it is true exactly
for quantized tensors on the host (QuantizedCPU key).  A Vulkan-resident
tensor of dtype `kQInt8`/`kQUInt8` reports `is_quantized() == false`;
only the flag on its backing `vTensor` (`v_is_quantized` here) records
quantization, which is why `usable` consults `convert(input)`. -/
def Tensor.is_quantized (t : Tensor) : Bool :=
  (t.dtype = ScalarType.QInt8 ∨ t.dtype = ScalarType.QUInt8) ∧
    t.device = DeviceType.cpu

/-- `Tensor::vulkan()`: device transfer to Vulkan.  A fresh Vulkan image
is allocated in the default `TENSOR_CHANNELS_PACKED` layout; all logical
metadata is preserved. -/
def Tensor.vulkan (t : Tensor) : Tensor :=
  { t with device := DeviceType.vulkan, vlayout := GPUMemoryLayout.channels_packed }

/-- The `api::vTensor` metadata visible to `Mm.cpp`. -/
structure vTensor where
  sizes : List Nat
  dtype : ScalarType
  gpu_memory_layout : GPUMemoryLayout
  is_quantized : Bool
deriving DecidableEq, Repr

/-- `ops::convert` from an (assumed Vulkan-resident) `at::Tensor` to its
backing `vTensor`. -/
def convert (t : Tensor) : vTensor :=
  { sizes := t.sizes
    dtype := t.dtype
    gpu_memory_layout := t.vlayout
    is_quantized := t.v_is_quantized }

/-- `ops::convert` from a `vTensor` back to a Vulkan-resident
`at::Tensor`. -/
def convert_v (v : vTensor) : Tensor :=
  { sizes := v.sizes
    device := DeviceType.vulkan
    dtype := v.dtype
    requires_grad := false
    v_is_quantized := v.is_quantized
    vlayout := v.gpu_memory_layout }

/-- `api::utils::div_up(x, y) = (x + y - 1) / y` on the nonnegative
sizes that reach it. -/
def div_up (x y : Nat) : Nat := (x + y - 1) / y

/-! ## Eligibility validator (`available`, `usable`) -/

/-- `available_check_with_batch` (Mm.cpp:284-336): the batched weight
must be rank 3 with positive dimensions, on CPU or Vulkan, float, and
not require gradients; a present bias must be rank > 0, on CPU or
Vulkan, float, not require gradients, and its width (and, if rank 3, its
batch) must match the weight or be 1; the height axis is deliberately
unchecked. -/
def available_check_with_batch (weight : Tensor) (bias : Option Tensor) : Bool :=
  let weight_available : Bool :=
    decide (weight.dim = 3) &&
    decide (0 < weight.size 0) &&
    decide (0 < weight.size 1) &&
    decide (0 < weight.size 2) &&
    (weight.is_cpu || decide (weight.device = DeviceType.vulkan)) &&
    decide (weight.dtype = ScalarType.Float) &&
    !weight.requires_grad
  if !weight_available then
    false
  else
    match bias with
    | none => true
    | some b =>
      decide (0 < b.dim) &&
      (b.is_cpu || decide (b.device = DeviceType.vulkan)) &&
      decide (b.dtype = ScalarType.Float) &&
      (if b.dim = 3 then
        (decide (b.size 2 = weight.size 2) || decide (b.size 2 = 1)) &&
        (decide (b.size 0 = weight.size 0) || decide (b.size 0 = 1))
      else if b.dim = 2 then
        (decide (b.size 1 = weight.size 2) || decide (b.size 1 = 1))
      else
        (decide (b.size 0 = weight.size 2) || decide (b.size 0 = 1))) &&
      !b.requires_grad

/-- `available` (Mm.cpp:338-374).  `api_available` models the global
`api::available()` runtime probe.  Unbatched: the weight must be rank 2
with positive dimensions, on CPU or Vulkan, of dtype float or `kQInt8`,
and not require gradients; a present bias must be rank > 0, on CPU or
Vulkan, float, not require gradients, and — only when its rank is
greater than 1 — its width must equal the weight's width. -/
def available (api_available : Bool) (weight : Tensor) (bias : Option Tensor)
    (use_batch : Bool) : Bool :=
  if !api_available then
    false
  else if use_batch then
    available_check_with_batch weight bias
  else
    let weight_available : Bool :=
      decide (weight.dim = 2) &&
      decide (0 < weight.size 0) &&
      decide (0 < weight.size 1) &&
      (weight.is_cpu || decide (weight.device = DeviceType.vulkan)) &&
      (decide (weight.dtype = ScalarType.Float) ||
        decide (weight.dtype = ScalarType.QInt8)) &&
      !weight.requires_grad
    if !weight_available then
      false
    else
      match bias with
      | none => true
      | some b =>
        decide (0 < b.dim) &&
        (b.is_cpu || decide (b.device = DeviceType.vulkan)) &&
        decide (b.dtype = ScalarType.Float) &&
        (if 1 < b.dim then decide (b.size 1 = weight.size 1) else true) &&
        !b.requires_grad

/-- `usable_check_with_batch` (Mm.cpp:376-387). -/
def usable_check_with_batch (input : Tensor) (unpacked_weight_sizes : List Nat) : Bool :=
  decide (input.dim = 3) &&
  decide (input.device = DeviceType.vulkan) &&
  decide (input.dtype = ScalarType.Float) &&
  decide (input.size 2 = unpacked_weight_sizes.getD 1 0) &&
  decide (input.size 0 = unpacked_weight_sizes.getD 0 0) &&
  !input.requires_grad && true

/-- `usable` (Mm.cpp:389-405).  Unbatched: the input must be rank 2, on
the Vulkan device, float (or an 8-bit quantized dtype backed by a
quantized image), its width must equal the weight's height, and it must
not require gradients. -/
def usable (input : Tensor) (unpacked_weight_sizes : List Nat) (use_batch : Bool) : Bool :=
  if use_batch then
    usable_check_with_batch input unpacked_weight_sizes
  else
    let v_input := convert input
    decide (input.dim = 2) &&
    decide (input.device = DeviceType.vulkan) &&
    (decide (input.dtype = ScalarType.Float) ||
      (v_input.is_quantized &&
        (decide (input.dtype = ScalarType.QUInt8) ||
          decide (input.dtype = ScalarType.QInt8)))) &&
    decide (input.size 1 = unpacked_weight_sizes.getD 0 0) &&
    !input.requires_grad && true

/-! ## Layout packer: the staged 2x2-tile copy

The staged copy writes a zero-initialized flat destination buffer and
then copies source element `(b, h, w)` to flat destination offset
`b * dst_matrix_sz + dst_plane * dst_plane_sz + dst_index` with
`dst_plane = 2*(h%2) + (w%2)` (the channel), `dst_index =
(h/2)*dst_kw_sz + (w/2)` (the plane position), `dst_plane_sz =
dst_kw_sz * dst_kh_sz` and `dst_matrix_sz = 4 * dst_plane_sz`. -/

/-- One `memcpy` of a single element into the staging buffer. -/
def bufWrite (buf : Nat → Int) (i : Nat) (v : Int) : Nat → Int :=
  fun j => if j = i then v else buf j

/-- The flat destination offset of loop iteration `(b, h, w)`:
channel `2*(h%2)+(w%2)`, plane position `(h/2, w/2)`, batch stride
`4 * dst_kh * dst_kw`. -/
def dstPos (dst_kh dst_kw : Nat) (t : Nat × Nat × Nat) : Nat :=
  t.1 * ((dst_kw * dst_kh) * 4) + (2 * (t.2.1 % 2) + t.2.2 % 2) * (dst_kw * dst_kh) +
    ((t.2.1 / 2) * dst_kw + t.2.2 / 2)

/-- The `(src_b, src_h, src_w)` triples of the three nested copy loops,
in iteration order. -/
def loopIndices (kb hN wN : Nat) : List (Nat × Nat × Nat) :=
  (List.range kb).flatMap fun b =>
    (List.range hN).flatMap fun h =>
      (List.range wN).map fun w => (b, h, w)

/-- The staged copy: zero-initialize, then perform one single-element
write per loop iteration, reading the source through `read`. -/
def stagedCopy (kb hN wN dst_kh dst_kw : Nat) (read : Nat × Nat × Nat → Int) :
    Nat → Int :=
  (loopIndices kb hN wN).foldl
    (fun buf t => bufWrite buf (dstPos dst_kh dst_kw t) (read t)) (fun _ => 0)

/-- Modelled from the spec: `stage_pack_weights` is declared in
`ops/Mm.h`, which is not under `src/`; the spec describes it as a direct
staged memory copy — "write zero-initialized destination, then copy each
source element to its tiled destination position using the formula
above; batched variant carries a batch stride in both source and
destination addressing".  The source is the flat row-major weight data
(`src_matrix_sz = src_kw_sz * src_kh_sz`); the in-src copy loop of
`pack_biases` (Mm.cpp:237-252) has the identical structure. -/
def stage_pack_weights (src : Nat → Int) (src_kb src_kh src_kw dst_kh dst_kw : Nat) :
    Nat → Int :=
  stagedCopy src_kb src_kh src_kw dst_kh dst_kw fun t =>
    src (t.1 * (src_kw * src_kh) + t.2.1 * src_kw + t.2.2)

/-- The staged copy loop of `pack_biases` (Mm.cpp:237-252): a source
dimension of size 1 is broadcast by iterating the corresponding loop
twice while pinning the source offset of that axis to 0. -/
def pack_biases_staged_buffer (src : Nat → Int) (use_batch : Bool)
    (src_kb src_kh src_kw : Nat) : Nat → Int :=
  stagedCopy src_kb
    (if src_kh = 1 then 2 else src_kh)
    (if use_batch = true ∧ src_kw = 1 then 2 else src_kw)
    (div_up src_kh 2) (div_up src_kw 2) fun t =>
      src (t.1 * (src_kw * src_kh) +
        (if src_kh = 1 then 0 else t.2.1 * src_kw) +
        (if use_batch = true ∧ src_kw = 1 then 0 else t.2.2))

/-! ## Packing entry points -/

/-- The destination `vTensor` sizes allocated by the staged path of
`pack_weights` (Mm.cpp:110-137): `{dst_kb, 4, div_up(src_kh, 2),
div_up(src_kw, 2)}` where the source sizes are read as `(batch, height,
width)` in batch mode and `(height, width)` otherwise. -/
def pack_weights_dst_sizes (use_batch : Bool) (w_sizes : List Nat) : List Nat :=
  let src_kb := if use_batch then w_sizes.getD 0 0 else 1
  let src_kw := if use_batch then w_sizes.getD 2 0 else w_sizes.getD 1 0
  let src_kh := if use_batch then w_sizes.getD 1 0 else w_sizes.getD 0 0
  [src_kb, 4, div_up src_kh 2, div_up src_kw 2]

/-- `pack_weights_using_height_packing` (Mm.cpp:49-81): asserts the
weight is non-quantized and rank 2, moves it to the Vulkan device,
re-lays a channels-packed image out to height-packed (the external
image-relayout primitive), and checks the result is height-packed. -/
def pack_weights_using_height_packing (weight_arg : Tensor) : Except String vTensor :=
  if weight_arg.is_quantized then
    Except.error "Weight packing only supports non-quantized tensors."
  else if ¬weight_arg.dim = 2 then
    Except.error "Weight packing only supports 2D tensors."
  else
    let weight := if weight_arg.is_cpu then weight_arg.vulkan else weight_arg
    if ¬weight.is_vulkan then
      Except.error "Weight must be on Vulkan device!"
    else
      let v0 := convert weight
      let v_weight :=
        if v0.gpu_memory_layout = GPUMemoryLayout.channels_packed then
          { v0 with gpu_memory_layout := GPUMemoryLayout.height_packed }
        else v0
      if ¬v_weight.gpu_memory_layout = GPUMemoryLayout.height_packed then
        Except.error "After packing, the v_weight must be in TENSOR_HEIGHT_PACKED format"
      else
        Except.ok v_weight

/-- `pack_weights` (Mm.cpp:83-167).  Non-quantized, non-batched weights
go through height packing; quantized and/or batched weights are staged
into a fresh image of sizes `pack_weights_dst_sizes` (content modelled
by `stage_pack_weights`); `q_scale()` on a tensor that is not
dispatch-key-quantized raises. -/
def pack_weights (weight_arg : Tensor) (use_batch : Bool) : Except String vTensor :=
  if ¬weight_arg.is_quantized ∧ ¬use_batch then
    pack_weights_using_height_packing weight_arg
  else
    let quantized : Bool :=
      weight_arg.dtype = ScalarType.QInt8 ∨ weight_arg.dtype = ScalarType.QUInt8
    if use_batch ∧ ¬weight_arg.dim = 3 then
      Except.error "the input tensor of a batch of matrices should contain 3 dimensions"
    else if quantized ∧ ¬weight_arg.is_quantized then
      Except.error "q_scale only works for quantized tensors"
    else
      Except.ok
        { sizes := pack_weights_dst_sizes use_batch weight_arg.sizes
          dtype := weight_arg.dtype
          gpu_memory_layout := GPUMemoryLayout.channels_packed
          is_quantized := quantized }

/-- The source extents `(src_kb, src_kh, src_kw)` used by the batched
staged path of `pack_biases` (Mm.cpp:188-203): rank-3 biases are read as
`(batch, height, width)`; lower ranks broadcast the missing leading axes
(size 1) and shift the remaining indices. -/
def pack_biases_src_dims (b_sizes : List Nat) : Nat × Nat × Nat :=
  if b_sizes.length = 3 then
    (b_sizes.getD 0 0, b_sizes.getD 1 0, b_sizes.getD 2 0)
  else if b_sizes.length = 2 then
    (1, b_sizes.getD 0 0, b_sizes.getD 1 0)
  else
    (1, 1, b_sizes.getD 0 0)

/-- `pack_biases` (Mm.cpp:169-282).  A Vulkan-resident bias is returned
as-is; otherwise `data_ptr<float>()` requires dtype float; a
non-batched float bias is pushed through unpacked (device transfer
only); the batched path stages the bias into a `{src_kb, 4,
div_up(src_kh,2), div_up(src_kw,2)}` image (content modelled by
`pack_biases_staged_buffer`); an absent bias yields a single-element
zero tensor of the weight's dtype. -/
def pack_biases (weight_arg : Tensor) (bias_arg : Option Tensor) (use_batch : Bool) :
    Except String vTensor :=
  match bias_arg with
  | some b =>
    if b.is_vulkan then
      Except.ok (convert b)
    else if ¬b.dtype = ScalarType.Float then
      Except.error "expected scalar type Float"
    else if use_batch then
      let dims := pack_biases_src_dims b.sizes
      Except.ok
        { sizes := [dims.1, 4, div_up dims.2.1 2, div_up dims.2.2 2]
          dtype := b.dtype
          gpu_memory_layout := GPUMemoryLayout.channels_packed
          is_quantized := false }
    else
      Except.ok (convert b.vulkan)
  | none =>
    Except.ok
      { sizes := [1]
        dtype := weight_arg.dtype
        gpu_memory_layout := GPUMemoryLayout.channels_packed
        is_quantized := false }

/-! ## Prepacked context -/

/-- An `c10::IValue` slot of the packed/unpacked lists of a
`LinearPackedContext`. -/
inductive IVal
  | tens (t : Tensor)
  | optTens (t : Option Tensor)
  | ints (l : List Nat)
  | flag (b : Bool)
deriving DecidableEq, Repr

/-- `IValue::toTensor` on the slots `Mm.cpp` actually reads. -/
def IVal.toTensor : IVal → Tensor
  | .tens t => t
  | _ => { sizes := [], device := DeviceType.cpu, dtype := ScalarType.Float,
           requires_grad := false, v_is_quantized := false,
           vlayout := GPUMemoryLayout.channels_packed }

/-- `IValue::toIntVector`. -/
def IVal.toIntList : IVal → List Nat
  | .ints l => l
  | _ => []

/-- `IValue::toBool`. -/
def IVal.toBool : IVal → Bool
  | .flag b => b
  | _ => false

/-- The state of a `LinearPackedContext`: the packed slots
`[Weight, Bias, WeightSizes, BiasDefined]` (the `emplace_back` order of
the constructor, Mm.cpp:898-902) and the optionally retained unpacked
originals `[Weight, Bias]`. -/
structure LinearPackedContext where
  packed : List IVal
  unpacked : List IVal
deriving DecidableEq, Repr

/-- `VulkanPackedContext::get_val(i)`: a read of slot `i`.  It is a
`const` accessor; the context state it returns alongside the value is
the untouched input state. -/
def LinearPackedContext.get_val (ctx : LinearPackedContext) (i : Nat) :
    IVal × LinearPackedContext :=
  (ctx.packed.getD i (IVal.flag false), ctx)

/-- The `LinearPackedContext` constructor (Mm.cpp:887-909): checks
`available`, packs the weight and the bias, records the unpacked weight
sizes and the bias-defined flag, and retains the unpacked originals
exactly when the process-wide release-weights-when-prepacking setting
(`release_weights` here) is off. -/
def LinearPackedContext.make (api_available release_weights : Bool) (weight : Tensor)
    (bias : Option Tensor) (use_batch : Bool) : Except String LinearPackedContext :=
  if ¬available api_available weight bias use_batch then
    Except.error "Vulkan Linear not available!"
  else
    match pack_weights weight use_batch, pack_biases weight bias use_batch with
    | Except.ok pw, Except.ok pb =>
      Except.ok
        { packed := [IVal.tens (convert_v pw), IVal.tens (convert_v pb),
                     IVal.ints weight.sizes, IVal.flag bias.isSome]
          unpacked := if release_weights then [] else [IVal.tens weight, IVal.optTens bias] }
    | Except.error e, _ => Except.error e
    | _, Except.error e => Except.error e

/-! ## Dispatcher -/

/-- The compute-shader kernels this file can dispatch
(`VK_KERNEL(...)` descriptors). -/
inductive KernelName
  | mm
  | addmm
  | quantized_mm_qint8
  | quantized_mm_quint8
  | quantized_addmm_qint8
  | quantized_addmm_quint8
  | bmm
  | baddbmm
deriving DecidableEq, Repr

/-- One `submit_compute_job` call: the shader descriptor, the global
work-group size and the local work-group size. -/
structure ComputeJob where
  shader : KernelName
  global_size : Nat × Nat × Nat
  local_size : Nat × Nat × Nat
deriving DecidableEq, Repr

/-- The single compute job submitted by `run_addmm_context`
(Mm.cpp:477-661), as a function of the two dispatch booleans, the input
dtype (which picks the qint8 vs quint8 shader) and the 2-D output
extents.  Both branches submit with global size
`(div_up(out_w, 4), div_up(out_h, 4), 1)` and local size `(8, 8, 1)`. -/
def addmm_compute_job (quantized bias_defined : Bool) (input_dtype : ScalarType)
    (out_h out_w : Nat) : ComputeJob :=
  if bias_defined then
    { shader :=
        if quantized then
          if input_dtype = ScalarType.QInt8 then KernelName.quantized_addmm_qint8
          else KernelName.quantized_addmm_quint8
        else KernelName.addmm
      global_size := (div_up out_w 4, div_up out_h 4, 1)
      local_size := (8, 8, 1) }
  else
    { shader :=
        if quantized then
          if input_dtype = ScalarType.QInt8 then KernelName.quantized_mm_qint8
          else KernelName.quantized_mm_quint8
        else KernelName.mm
      global_size := (div_up out_w 4, div_up out_h 4, 1)
      local_size := (8, 8, 1) }

/-- The single compute job submitted by `run_baddbmm_context`
(Mm.cpp:719-811): `baddbmm` when the bias is defined, `bmm` otherwise,
with global size `(div_up(weight_width, 2), div_up(input_height, 2),
div_up(input_batch, 4))` and local size `(8, 8, 1)`. -/
def baddbmm_compute_job (bias_defined : Bool) (weight_width input_height input_batch : Nat) :
    ComputeJob :=
  if bias_defined then
    { shader := KernelName.baddbmm
      global_size := (div_up weight_width 2, div_up input_height 2, div_up input_batch 4)
      local_size := (8, 8, 1) }
  else
    { shader := KernelName.bmm
      global_size := (div_up weight_width 2, div_up input_height 2, div_up input_batch 4)
      local_size := (8, 8, 1) }

/-! ## Shape adapter and the addmm runner -/

/-- `reshape_to_2d` (Mm.cpp:407-415): requires rank >= 2 and collapses
all leading axes into their product, keeping the last axis. -/
def reshape_to_2d (input_arg : Tensor) : Except String Tensor :=
  if input_arg.dim < 2 then
    Except.error "Vulkan Linear op only supports input tensor with dim >= 2"
  else
    Except.ok { input_arg with sizes := [input_arg.sizes.dropLast.prod, input_arg.sizes.getLastD 0] }

/-- `pack_inputs_using_height_packing` (Mm.cpp:19-47): asserts the input
is non-quantized (dispatch key) and rank 2, moves it to Vulkan, re-lays
a channels-packed image out to width-packed, and checks the result is
width-packed. -/
def pack_inputs_using_height_packing (input_arg : Tensor) : Except String vTensor :=
  if input_arg.is_quantized then
    Except.error "Input packing only supports non-quantized tensors."
  else if ¬input_arg.dim = 2 then
    Except.error "Input packing only supports 2D tensors."
  else
    let input := if input_arg.is_cpu then input_arg.vulkan else input_arg
    if ¬input.is_vulkan then
      Except.error "Input must be on Vulkan device!"
    else
      let v0 := convert input
      let v_input :=
        if v0.gpu_memory_layout = GPUMemoryLayout.channels_packed then
          { v0 with gpu_memory_layout := GPUMemoryLayout.width_packed }
        else v0
      if ¬v_input.gpu_memory_layout = GPUMemoryLayout.width_packed then
        Except.error "After packing, the v_input must be in TENSOR_WIDTH_PACKED format"
      else
        Except.ok v_input

/-- The result of one `run_addmm_context` invocation: the returned
output tensor and the single compute job that was submitted. -/
structure RunResult where
  output : Tensor
  job : ComputeJob
deriving DecidableEq, Repr

/-- The body of `run_addmm_context` after the input has been staged
(Mm.cpp:431-673): pack the input, read the four context slots (each a
`get_val` read threaded through the context state), re-validate
`usable`, check the quantization/layout invariants, allocate the 2-D
output `{input_2d_height, weight_width}`, submit the compute job, and
restore the caller's leading shape when the original rank exceeded 2. -/
def run_addmm_core (arg_sizes : List Nat) (arg_dtype : ScalarType)
    (sizes_2d : List Nat) (input : Tensor) (quantized : Bool)
    (ctx0 : LinearPackedContext) : Except String RunResult × LinearPackedContext :=
  match pack_inputs_using_height_packing input with
  | Except.error e => (Except.error e, ctx0)
  | Except.ok v_input =>
    let wread := ctx0.get_val 0
    let bread := wread.2.get_val 1
    let wsread := bread.2.get_val 2
    let bdread := wsread.2.get_val 3
    let ctx := bdread.2
    let packed_v_weight := convert wread.1.toTensor
    let unpacked_weight_sizes := wsread.1.toIntList
    let bias_defined := bdread.1.toBool
    if ¬usable input unpacked_weight_sizes false then
      (Except.error "Vulkan Linear not usable!", ctx)
    else if quantized ∧ ¬(packed_v_weight.is_quantized ∧ v_input.is_quantized) then
      (Except.error "run_addmm_context called for quantized version with unquantized input", ctx)
    else if ¬quantized ∧ ¬packed_v_weight.gpu_memory_layout = GPUMemoryLayout.height_packed then
      (Except.error "run_addmm_context called for non-quantized version with unpacked weight", ctx)
    else
      let out_h := sizes_2d.getD 0 0
      let out_w := unpacked_weight_sizes.getD 1 0
      let v_output : vTensor :=
        { sizes := [out_h, out_w]
          dtype := arg_dtype
          gpu_memory_layout := GPUMemoryLayout.channels_packed
          is_quantized := quantized }
      let job := addmm_compute_job quantized bias_defined arg_dtype out_h out_w
      let output := convert_v v_output
      if arg_sizes.length = 2 then
        (Except.ok { output := output, job := job }, ctx)
      else
        let shape := (List.range (arg_sizes.length - 1)).map (fun i => arg_sizes.getD i 0) ++
          [output.sizes.getLastD 0]
        (Except.ok { output := { output with sizes := shape }, job := job }, ctx)

/-- `run_addmm_context` (Mm.cpp:417-674), modelled as a function of the
input tensor, the `quantized` mode flag and the context state; the
multiplier pair and the output scale/zero-point flow only into the
parameter block, which is modelled by the job's identity.  It returns
the invocation result together with the final context state. -/
def run_addmm_context (input_arg : Tensor) (quantized : Bool)
    (ctx0 : LinearPackedContext) : Except String RunResult × LinearPackedContext :=
  match (if input_arg.dim = 2 then Except.ok input_arg else reshape_to_2d input_arg) with
  | Except.error e => (Except.error e, ctx0)
  | Except.ok input_arg_2d =>
    let input := if input_arg_2d.is_vulkan then input_arg_2d else input_arg_2d.vulkan
    run_addmm_core input_arg.sizes input_arg.dtype input_arg_2d.sizes input quantized ctx0

/-- The input staging prefix of `run_addmm_context` (Mm.cpp:427-430):
collapse to rank 2 when needed, then transfer to the Vulkan device when
the tensor is not already resident there.  The tensor it produces is the
one `usable` is invoked on. -/
def addmm_checked_input (input_arg : Tensor) : Except String Tensor :=
  match (if input_arg.dim = 2 then Except.ok input_arg else reshape_to_2d input_arg) with
  | Except.error e => Except.error e
  | Except.ok input_arg_2d =>
    Except.ok (if input_arg_2d.is_vulkan then input_arg_2d else input_arg_2d.vulkan)

/-- `run_linear_context` (Mm.cpp:924-928): the non-quantized addmm
runner. -/
def run_linear_context (input : Tensor) (ctx : LinearPackedContext) :
    Except String RunResult × LinearPackedContext :=
  run_addmm_context input false ctx

/-- `run_qlinear_context` (Mm.cpp:930-943): the quantized addmm
runner. -/
def run_qlinear_context (input : Tensor) (ctx : LinearPackedContext) :
    Except String RunResult × LinearPackedContext :=
  run_addmm_context input true ctx

/-! ## Helper lemmas for the staged copy -/

/-- Decompose an equality of `a * k + r` forms with both remainders
below `k`. -/
theorem mul_add_cancel_of_lt {k a b r s : Nat} (hr : r < k) (hs : s < k)
    (h : a * k + r = b * k + s) : a = b ∧ r = s := by
  have hk : 0 < k := Nat.lt_of_le_of_lt (Nat.zero_le r) hr
  rw [Nat.mul_comm a k, Nat.mul_comm b k] at h
  have hmod : r = s := by
    have h1 : (k * a + r) % k = (k * b + s) % k := by rw [h]
    rwa [Nat.mul_add_mod, Nat.mul_add_mod, Nat.mod_eq_of_lt hr, Nat.mod_eq_of_lt hs] at h1
  subst hmod
  have h2 : k * a = k * b := by omega
  exact ⟨Nat.eq_of_mul_eq_mul_left hk h2, rfl⟩

/-- A tile index `a * d + b` with `a < c` and `b < d` stays below
`c * d`. -/
theorem tile_index_lt {a b c d : Nat} (ha : a < c) (hb : b < d) : a * d + b < c * d :=
  calc a * d + b < a * d + d := by omega
    _ = (a + 1) * d := by ring
    _ ≤ c * d := Nat.mul_le_mul_right d ha

/-- Distinct loop iterations of the staged copy write distinct flat
destination offsets, provided the loop extents fit inside the doubled
destination extents. -/
theorem dstPos_injective {dst_kh dst_kw : Nat} {b h w b2 h2 w2 : Nat}
    (hh : h < 2 * dst_kh) (hw : w < 2 * dst_kw)
    (hh2 : h2 < 2 * dst_kh) (hw2 : w2 < 2 * dst_kw)
    (heq : dstPos dst_kh dst_kw (b, h, w) = dstPos dst_kh dst_kw (b2, h2, w2)) :
    b = b2 ∧ h = h2 ∧ w = w2 := by
  have hkh : 0 < dst_kh := by omega
  have hkw : 0 < dst_kw := by omega
  have hP : 0 < dst_kw * dst_kh := Nat.mul_pos hkw hkh
  have hidx : (h / 2) * dst_kw + w / 2 < dst_kw * dst_kh := by
    rw [Nat.mul_comm dst_kw dst_kh]
    exact tile_index_lt (by omega) (by omega)
  have hidx2 : (h2 / 2) * dst_kw + w2 / 2 < dst_kw * dst_kh := by
    rw [Nat.mul_comm dst_kw dst_kh]
    exact tile_index_lt (by omega) (by omega)
  have hre : (b * 4 + (2 * (h % 2) + w % 2)) * (dst_kw * dst_kh) +
      ((h / 2) * dst_kw + w / 2) =
      (b2 * 4 + (2 * (h2 % 2) + w2 % 2)) * (dst_kw * dst_kh) +
      ((h2 / 2) * dst_kw + w2 / 2) := by
    have := heq
    simp only [dstPos] at this
    ring_nf at this ⊢
    omega
  obtain ⟨houter, hinner⟩ :=
    mul_add_cancel_of_lt (k := dst_kw * dst_kh) hidx hidx2 hre
  obtain ⟨hdivh, hdivw⟩ :=
    mul_add_cancel_of_lt (k := dst_kw) (by omega) (by omega) hinner
  refine ⟨by omega, by omega, by omega⟩

/-- Membership in the copy-loop iteration list is exactly boundedness in
each of the three loop extents. -/
theorem mem_loopIndices {kb hN wN b h w : Nat} :
    (b, h, w) ∈ loopIndices kb hN wN ↔ b < kb ∧ h < hN ∧ w < wN := by
  simp only [loopIndices, List.mem_flatMap, List.mem_map, List.mem_range]
  constructor
  · rintro ⟨b2, hb2, h2, hh2, w2, hw2, heq⟩
    rw [Prod.mk.injEq, Prod.mk.injEq] at heq
    obtain ⟨rfl, rfl, rfl⟩ := heq
    exact ⟨hb2, hh2, hw2⟩
  · rintro ⟨hb, hh, hw⟩
    exact ⟨b, hb, h, hh, w, hw, rfl⟩

/-- A left fold of single-element writes evaluates, at an offset that
some iteration writes (or the initial buffer already holds), to the
common value all writers of that offset agree on. -/
theorem foldl_bufWrite_eq {T : Type} (key : T → Nat) (val : T → Int) (p : Nat) (v : Int) :
    ∀ (l : List T) (init : Nat → Int),
      (∀ t ∈ l, key t = p → val t = v) →
      (init p = v ∨ ∃ t ∈ l, key t = p) →
      (l.foldl (fun buf t => bufWrite buf (key t) (val t)) init) p = v := by
  intro l
  induction l with
  | nil =>
    intro init hval hsrc
    rcases hsrc with h0 | ⟨t, ht, _⟩
    · simpa using h0
    · exact absurd ht (List.not_mem_nil t)
  | cons a l ih =>
    intro init hval hsrc
    simp only [List.foldl_cons]
    apply ih
    · intro t ht hkt
      exact hval t (List.mem_cons_of_mem a ht) hkt
    · by_cases hka : key a = p
      · left
        have hva : val a = v := hval a (List.mem_cons_self a l) hka
        simp [bufWrite, hka, hva]
      · rcases hsrc with h0 | ⟨t, ht, hkt⟩
        · left
          simp only [bufWrite]
          rw [if_neg (by omega)]
          exact h0
        · rcases List.mem_cons.mp ht with rfl | htl
          · exact absurd hkt hka
          · exact Or.inr ⟨t, htl, hkt⟩

/-- Evaluating the staged copy at the destination offset of loop
iteration `(b, h, w)` yields the value that iteration reads, provided
the loop extents fit inside the doubled destination extents. -/
theorem stagedCopy_maps (read : Nat × Nat × Nat → Int) (kb hN wN dst_kh dst_kw : Nat)
    (b h w : Nat) (hb : b < kb) (hh : h < hN) (hw : w < wN)
    (hhb : hN ≤ 2 * dst_kh) (hwb : wN ≤ 2 * dst_kw) :
    stagedCopy kb hN wN dst_kh dst_kw read (dstPos dst_kh dst_kw (b, h, w)) =
      read (b, h, w) := by
  unfold stagedCopy
  apply foldl_bufWrite_eq
  · intro t ht hkt
    obtain ⟨b2, h2, w2⟩ := t
    obtain ⟨hb2, hh2, hw2⟩ := mem_loopIndices.mp ht
    obtain ⟨rfl, rfl, rfl⟩ :=
      dstPos_injective (by omega) (by omega) (by omega) (by omega) hkt
    rfl
  · exact Or.inr ⟨(b, h, w), mem_loopIndices.mpr ⟨hb, hh, hw⟩, rfl⟩

/-- Rewrites the C++ `div_up` into Mathlib's ceiling division. -/
theorem div_up_eq_ceilDiv (a b : Nat) : div_up a b = a ⌈/⌉ b := rfl

/-! ## Claim theorems -/

/-- C2: in the staged packing copy (the quantized/batched weight path
`stage_pack_weights` with destination extents `div_up(kh,2)` and
`div_up(kw,2)` as passed by `pack_weights`, and the packed-bias copy
loop of `pack_biases`), every source element at matrix position
`(h, w)` of batch `b` is written to flat destination offset
`dstPos` — channel `2*(h%2)+(w%2)`, plane position `(h/2, w/2)` — for
all valid `h` and `w`. -/
theorem c2_staged_copy_tiles_elements (src : Nat → Int) (use_batch : Bool)
    (kb kh kw b h w : Nat) (hb : b < kb) (hh : h < kh) (hw : w < kw) :
    stage_pack_weights src kb kh kw (div_up kh 2) (div_up kw 2)
        (dstPos (div_up kh 2) (div_up kw 2) (b, h, w)) =
      src (b * (kw * kh) + h * kw + w) ∧
    pack_biases_staged_buffer src use_batch kb kh kw
        (dstPos (div_up kh 2) (div_up kw 2) (b, h, w)) =
      src (b * (kw * kh) + h * kw + w) := by
  have hkh2 : kh ≤ 2 * div_up kh 2 := by unfold div_up; omega
  have hkw2 : kw ≤ 2 * div_up kw 2 := by unfold div_up; omega
  constructor
  · unfold stage_pack_weights
    exact stagedCopy_maps _ kb kh kw _ _ b h w hb hh hw hkh2 hkw2
  · unfold pack_biases_staged_buffer
    have hh' : h < (if kh = 1 then 2 else kh) := by split <;> omega
    have hw' : w < (if use_batch = true ∧ kw = 1 then 2 else kw) := by split <;> omega
    have hhb : (if kh = 1 then 2 else kh) ≤ 2 * div_up kh 2 := by
      unfold div_up; split <;> omega
    have hwb : (if use_batch = true ∧ kw = 1 then 2 else kw) ≤ 2 * div_up kw 2 := by
      unfold div_up; split <;> omega
    rw [stagedCopy_maps _ kb _ _ (div_up kh 2) (div_up kw 2) b h w hb hh' hw' hhb hwb]
    by_cases h1 : kh = 1
    · have h0 : h = 0 := by omega
      subst h0
      by_cases h2 : use_batch = true ∧ kw = 1
      · have w0 : w = 0 := by omega
        subst w0
        simp [h1, h2]
      · simp [h1, h2]
    · by_cases h2 : use_batch = true ∧ kw = 1
      · have w0 : w = 0 := by omega
        subst w0
        simp [h1, h2]
      · simp [h1, h2]

/-- Witness for C2 at a concrete instance. -/
theorem c2_staged_copy_tiles_elements_witness :
    stage_pack_weights (fun i => (i : Int)) 1 3 3 (div_up 3 2) (div_up 3 2)
        (dstPos (div_up 3 2) (div_up 3 2) (0, 1, 2)) =
      ((0 * (3 * 3) + 1 * 3 + 2 : Nat) : Int) ∧
    pack_biases_staged_buffer (fun i => (i : Int)) true 1 3 3
        (dstPos (div_up 3 2) (div_up 3 2) (0, 1, 2)) =
      ((0 * (3 * 3) + 1 * 3 + 2 : Nat) : Int) :=
  c2_staged_copy_tiles_elements (fun i => (i : Int)) true 1 3 3 0 1 2
    (by decide) (by decide) (by decide)

/-- C3: for every source matrix of size `(rows, cols)` with `rows, cols
>= 1` packed through the staged copy path, the packed destination tensor
is allocated with sizes `(batch, 4, ceil(rows/2), ceil(cols/2))`: this
holds for the batched and the unbatched `pack_weights` allocation and
for the batched `pack_biases` staging allocation. -/
theorem c3_staged_dst_sizes (kb rows cols : Nat) (w b : Tensor)
    (_hr : 1 ≤ rows) (_hc : 1 ≤ cols)
    (hwsz : w.sizes = [kb, rows, cols]) (hwdt : w.dtype = ScalarType.Float)
    (hbsz : b.sizes = [kb, rows, cols]) (hbdev : b.device = DeviceType.cpu)
    (hbdt : b.dtype = ScalarType.Float) :
    pack_weights_dst_sizes true [kb, rows, cols] = [kb, 4, rows ⌈/⌉ 2, cols ⌈/⌉ 2] ∧
    pack_weights_dst_sizes false [rows, cols] = [1, 4, rows ⌈/⌉ 2, cols ⌈/⌉ 2] ∧
    pack_weights w true = Except.ok
      { sizes := [kb, 4, rows ⌈/⌉ 2, cols ⌈/⌉ 2]
        dtype := ScalarType.Float
        gpu_memory_layout := GPUMemoryLayout.channels_packed
        is_quantized := false } ∧
    pack_biases w (some b) true = Except.ok
      { sizes := [kb, 4, rows ⌈/⌉ 2, cols ⌈/⌉ 2]
        dtype := ScalarType.Float
        gpu_memory_layout := GPUMemoryLayout.channels_packed
        is_quantized := false } := by
  have hq : w.is_quantized = false := by
    simp [Tensor.is_quantized, hwdt]
  refine ⟨?_, ?_, ?_, ?_⟩
  · simp [pack_weights_dst_sizes, div_up_eq_ceilDiv]
  · simp [pack_weights_dst_sizes, div_up_eq_ceilDiv]
  · simp [pack_weights, hq, Tensor.dim, hwsz, hwdt, pack_weights_dst_sizes,
      div_up_eq_ceilDiv]
  · simp [pack_biases, Tensor.is_vulkan, hbdev, hbdt, pack_biases_src_dims, hbsz,
      div_up_eq_ceilDiv]

/-- Witness for C3 at a concrete instance. -/
theorem c3_staged_dst_sizes_witness :
    pack_weights_dst_sizes true [2, 3, 5] = [2, 4, 3 ⌈/⌉ 2, 5 ⌈/⌉ 2] ∧
    pack_weights_dst_sizes false [3, 5] = [1, 4, 3 ⌈/⌉ 2, 5 ⌈/⌉ 2] ∧
    pack_weights
      { sizes := [2, 3, 5], device := DeviceType.cpu, dtype := ScalarType.Float,
        requires_grad := false, v_is_quantized := false,
        vlayout := GPUMemoryLayout.channels_packed } true = Except.ok
      { sizes := [2, 4, 3 ⌈/⌉ 2, 5 ⌈/⌉ 2]
        dtype := ScalarType.Float
        gpu_memory_layout := GPUMemoryLayout.channels_packed
        is_quantized := false } ∧
    pack_biases
      { sizes := [2, 3, 5], device := DeviceType.cpu, dtype := ScalarType.Float,
        requires_grad := false, v_is_quantized := false,
        vlayout := GPUMemoryLayout.channels_packed }
      (some
        { sizes := [2, 3, 5], device := DeviceType.cpu, dtype := ScalarType.Float,
          requires_grad := false, v_is_quantized := false,
          vlayout := GPUMemoryLayout.channels_packed }) true = Except.ok
      { sizes := [2, 4, 3 ⌈/⌉ 2, 5 ⌈/⌉ 2]
        dtype := ScalarType.Float
        gpu_memory_layout := GPUMemoryLayout.channels_packed
        is_quantized := false } :=
  c3_staged_dst_sizes 2 3 5 _ _ (by decide) (by decide) rfl rfl rfl rfl rfl

/-- C1 counterexample: a rank-1 bias of size 5 combined with a weight of
width 3 (so `W2 = 5`, `W2 ≠ W` and `W2 ≠ 1`) is accepted by `available`,
because the width check of the unbatched bias branch applies only when
`bias->ndimension() > 1`; the claim says such a bias must be rejected. -/
theorem c1_counterexample :
    available true
      { sizes := [2, 3], device := DeviceType.cpu, dtype := ScalarType.Float,
        requires_grad := false, v_is_quantized := false,
        vlayout := GPUMemoryLayout.channels_packed }
      (some
        { sizes := [5], device := DeviceType.cpu, dtype := ScalarType.Float,
          requires_grad := false, v_is_quantized := false,
          vlayout := GPUMemoryLayout.channels_packed })
      false = true := by decide

/-- C1 (amended): for the unbatched case, `available` accepts a bias of
shape `(1, W)` combined with a weight whose width is `W`; a bias of rank
1 is accepted regardless of its size, because the width check applies
only to biases of rank greater than 1. -/
theorem c1_broadcast_acceptance (w b2 b1 : Tensor)
    (hwrank : w.dim = 2) (hw0 : 0 < w.size 0) (hw1 : 0 < w.size 1)
    (hwdev : w.device = DeviceType.cpu ∨ w.device = DeviceType.vulkan)
    (hwdt : w.dtype = ScalarType.Float ∨ w.dtype = ScalarType.QInt8)
    (hwg : w.requires_grad = false)
    (hb2s : b2.sizes = [1, w.size 1])
    (hb2dev : b2.device = DeviceType.cpu ∨ b2.device = DeviceType.vulkan)
    (hb2dt : b2.dtype = ScalarType.Float) (hb2g : b2.requires_grad = false)
    (hb1rank : b1.dim = 1)
    (hb1dev : b1.device = DeviceType.cpu ∨ b1.device = DeviceType.vulkan)
    (hb1dt : b1.dtype = ScalarType.Float) (hb1g : b1.requires_grad = false) :
    available true w (some b2) false = true ∧
    available true w (some b1) false = true := by
  have hb2rank : b2.dim = 2 := by simp [Tensor.dim, hb2s]
  have hb2w : b2.size 1 = w.size 1 := by simp [Tensor.size, hb2s]
  constructor
  · rcases hwdev with h1 | h1 <;> rcases hwdt with h2 | h2 <;> rcases hb2dev with h3 | h3 <;>
      simp [available, Tensor.is_cpu, hwrank, hw0, hw1, hwg, hb2rank, hb2w, hb2dt, hb2g,
        h1, h2, h3]
  · rcases hwdev with h1 | h1 <;> rcases hwdt with h2 | h2 <;> rcases hb1dev with h3 | h3 <;>
      simp [available, Tensor.is_cpu, hwrank, hw0, hw1, hwg, hb1rank, hb1dt, hb1g,
        h1, h2, h3]

/-- Witness for the amended C1 at a concrete instance. -/
theorem c1_broadcast_acceptance_witness :
    available true
      { sizes := [2, 3], device := DeviceType.cpu, dtype := ScalarType.Float,
        requires_grad := false, v_is_quantized := false,
        vlayout := GPUMemoryLayout.channels_packed }
      (some
        { sizes := [1, 3], device := DeviceType.cpu, dtype := ScalarType.Float,
          requires_grad := false, v_is_quantized := false,
          vlayout := GPUMemoryLayout.channels_packed })
      false = true ∧
    available true
      { sizes := [2, 3], device := DeviceType.cpu, dtype := ScalarType.Float,
        requires_grad := false, v_is_quantized := false,
        vlayout := GPUMemoryLayout.channels_packed }
      (some
        { sizes := [7], device := DeviceType.cpu, dtype := ScalarType.Float,
          requires_grad := false, v_is_quantized := false,
          vlayout := GPUMemoryLayout.channels_packed })
      false = true :=
  c1_broadcast_acceptance _ _ _ (by decide) (by decide) (by decide)
    (Or.inl rfl) (Or.inl rfl) rfl (by decide) (Or.inl rfl) rfl rfl
    (by decide) (Or.inl rfl) rfl rfl

/-- The claim's reading of `usable`: rank 2 (3 when batched), resident
on the Vulkan device, dtype float (or, unbatched, an 8-bit quantized
dtype on a quantized image), no gradients, and the reduction-axis /
batch-size equalities. -/
def usableSpec (input : Tensor) (ws : List Nat) (use_batch : Bool) : Prop :=
  if use_batch then
    input.dim = 3 ∧ input.device = DeviceType.vulkan ∧
      input.dtype = ScalarType.Float ∧ input.requires_grad = false ∧
      input.size 2 = ws.getD 1 0 ∧ input.size 0 = ws.getD 0 0
  else
    input.dim = 2 ∧ input.device = DeviceType.vulkan ∧
      (input.dtype = ScalarType.Float ∨
        (input.v_is_quantized = true ∧
          (input.dtype = ScalarType.QInt8 ∨ input.dtype = ScalarType.QUInt8))) ∧
      input.requires_grad = false ∧ input.size 1 = ws.getD 0 0

/-- C4: `usable(input, unpacked_weight_sizes, use_batch)` returns true
if and only if the input has rank 2 (3 when batched), resides on the
Vulkan device, is float (or, unbatched, a quantized 8-bit dtype on a
quantized image), does not require gradients, and its width equals the
weight's height (and, batched, its batch equals the weight's batch). -/
theorem c4_usable_iff (input : Tensor) (ws : List Nat) (use_batch : Bool) :
    usable input ws use_batch = true ↔ usableSpec input ws use_batch := by
  cases use_batch
  · simp only [usable, usableSpec, if_false, Bool.false_eq_true, convert]
    simp [Bool.and_eq_true, Bool.or_eq_true, decide_eq_true_eq, and_assoc]
    tauto
  · simp only [usable, usableSpec, usable_check_with_batch, if_true]
    simp [Bool.and_eq_true, decide_eq_true_eq, and_assoc]
    tauto

/-- The weight-side conditions that C5 says are necessary for
`available`. -/
def weight_requirements (weight : Tensor) (use_batch : Bool) : Prop :=
  if use_batch then
    weight.dim = 3 ∧ 0 < weight.size 0 ∧ 0 < weight.size 1 ∧ 0 < weight.size 2 ∧
      (weight.device = DeviceType.cpu ∨ weight.device = DeviceType.vulkan) ∧
      weight.dtype = ScalarType.Float ∧ weight.requires_grad = false
  else
    weight.dim = 2 ∧ 0 < weight.size 0 ∧ 0 < weight.size 1 ∧
      (weight.device = DeviceType.cpu ∨ weight.device = DeviceType.vulkan) ∧
      (weight.dtype = ScalarType.Float ∨ weight.dtype = ScalarType.QInt8) ∧
      weight.requires_grad = false

/-- Shared extraction lemma: a true `available` forces all weight-side
conditions. -/
theorem available_weight_facts {api : Bool} {w : Tensor} {b : Option Tensor}
    {use_batch : Bool} (h : available api w b use_batch = true) :
    weight_requirements w use_batch := by
  unfold available at h
  split at h
  · exact absurd h (by simp)
  · split at h
    · rename_i hub
      unfold available_check_with_batch at h
      dsimp only at h
      split at h
      · exact absurd h (by simp)
      · rename_i hwa
        simp only [Bool.not_eq_true', Bool.not_eq_false] at hwa
        simp only [Bool.and_eq_true, Bool.or_eq_true, decide_eq_true_eq,
          Bool.not_eq_true', Tensor.is_cpu] at hwa
        simp only [weight_requirements, hub, if_true]
        tauto
    · rename_i hub
      dsimp only at h
      split at h
      · exact absurd h (by simp)
      · rename_i hwa
        simp only [Bool.not_eq_true', Bool.not_eq_false] at hwa
        simp only [Bool.and_eq_true, Bool.or_eq_true, decide_eq_true_eq,
          Bool.not_eq_true', Tensor.is_cpu] at hwa
        simp only [Bool.not_eq_true] at hub
        simp only [weight_requirements, hub, Bool.false_eq_true, if_false]
        tauto

/-- C5: `available` returns false unless the weight has rank 2 (3 when
batched), every checked dimension strictly positive, resides on CPU or
the Vulkan device, has dtype float (unbatched also `kQInt8`; batched
only float), and does not require gradients. -/
theorem c5_available_weight_necessary (api : Bool) (w : Tensor) (b : Option Tensor)
    (use_batch : Bool) (h : available api w b use_batch = true) :
    weight_requirements w use_batch :=
  available_weight_facts h

/-- Witness for C5 at a concrete instance. -/
theorem c5_available_weight_necessary_witness :
    weight_requirements
      { sizes := [2, 3], device := DeviceType.cpu, dtype := ScalarType.Float,
        requires_grad := false, v_is_quantized := false,
        vlayout := GPUMemoryLayout.channels_packed } false :=
  c5_available_weight_necessary true _ none false (by decide)

/-- The claim's kernel-selection table over the two free booleans of the
unbatched dispatcher and the input dtype. -/
def kernel_selection (quantized bias_defined : Bool) (input_dtype : ScalarType) :
    KernelName :=
  match quantized, bias_defined with
  | false, false => KernelName.mm
  | false, true => KernelName.addmm
  | true, false =>
    if input_dtype = ScalarType.QInt8 then KernelName.quantized_mm_qint8
    else KernelName.quantized_mm_quint8
  | true, true =>
    if input_dtype = ScalarType.QInt8 then KernelName.quantized_addmm_qint8
    else KernelName.quantized_addmm_quint8

/-- C6: the dispatcher submits exactly one compute job; its kernel is
selected from (quantized, bias_defined) — with the input dtype choosing
between the qint8 and quint8 shaders — and batched contexts use bmm /
baddbmm; the global work-group size is
`(ceil(out_cols/4), ceil(out_rows/4), 1)` for the unbatched kernels and
`(ceil(out_cols/2), ceil(out_rows/2), ceil(batch/4))` for the batched
kernels, always with local work-group size `(8, 8, 1)`. -/
theorem c6_kernel_dispatch (quantized bias_defined : Bool) (input_dtype : ScalarType)
    (out_h out_w weight_w input_h input_b : Nat) :
    (addmm_compute_job quantized bias_defined input_dtype out_h out_w).shader =
      kernel_selection quantized bias_defined input_dtype ∧
    (addmm_compute_job quantized bias_defined input_dtype out_h out_w).global_size =
      (out_w ⌈/⌉ 4, out_h ⌈/⌉ 4, 1) ∧
    (addmm_compute_job quantized bias_defined input_dtype out_h out_w).local_size =
      (8, 8, 1) ∧
    (baddbmm_compute_job bias_defined weight_w input_h input_b).shader =
      (if bias_defined then KernelName.baddbmm else KernelName.bmm) ∧
    (baddbmm_compute_job bias_defined weight_w input_h input_b).global_size =
      (weight_w ⌈/⌉ 2, input_h ⌈/⌉ 2, input_b ⌈/⌉ 4) ∧
    (baddbmm_compute_job bias_defined weight_w input_h input_b).local_size =
      (8, 8, 1) := by
  cases quantized <;> cases bias_defined <;>
    simp [addmm_compute_job, baddbmm_compute_job, kernel_selection, div_up_eq_ceilDiv]

/-- The runner threads the context state through four `get_val` reads
and returns it untouched: shared helper for the non-mutation claim. -/
theorem run_addmm_context_state (input : Tensor) (quantized : Bool)
    (ctx : LinearPackedContext) :
    (run_addmm_context input quantized ctx).2 = ctx := by
  unfold run_addmm_context run_addmm_core
  dsimp only [LinearPackedContext.get_val]
  repeat' split
  all_goals rfl

/-- C7: `run_addmm_context` never mutates the context — the context
state after an invocation equals the state before it — and invoking it
twice with the same context and input produces identical results. -/
theorem c7_run_context_immutable (input : Tensor) (quantized : Bool)
    (ctx : LinearPackedContext) :
    (run_addmm_context input quantized ctx).2 = ctx ∧
    (run_addmm_context input quantized
        ((run_addmm_context input quantized ctx).2)).1 =
      (run_addmm_context input quantized ctx).1 := by
  refine ⟨run_addmm_context_state input quantized ctx, ?_⟩
  rw [run_addmm_context_state input quantized ctx]

/-- The width of the unpacked weight sizes stored in slot `WeightSizes`
of a context: the last dimension of every `run_addmm_context` output. -/
def ctx_weight_width (ctx : LinearPackedContext) : Nat :=
  (ctx.packed.getD 2 (IVal.flag false)).toIntList.getD 1 0

/-- Shared helper: the leading `length - 1` positions of a list read
through `getD` are exactly `dropLast`. -/
theorem range_map_getD_eq_dropLast (l : List Nat) :
    (List.range (l.length - 1)).map (fun i => l.getD i 0) = l.dropLast := by
  apply List.ext_getElem
  · simp
  · intro i h1 h2
    simp only [List.getElem_map, List.getElem_range, List.getElem_dropLast]
    rw [List.getD_eq_getElem]

/-- Shared helper: variant of `range_map_getD_eq_dropLast` in the
`getElem?` normal form produced by `simp`. -/
theorem range_map_getElem_eq_dropLast (l : List Nat) :
    (List.range (l.length - 1)).map (fun i => l[i]?.getD 0) = l.dropLast := by
  apply List.ext_getElem
  · simp
  · intro i h1 h2
    simp only [List.getElem_map, List.getElem_range, List.getElem_dropLast]
    have hb : i < l.length := by
      simp only [List.length_map, List.length_range] at h1
      omega
    rw [List.getElem?_eq_getElem hb]
    rfl

/-- Shared helper: the output sizes of a successful `run_addmm_context`
invocation, in both the rank-2 and the rank-greater-2 regime. -/
theorem run_addmm_ok_sizes {input : Tensor} {quantized : Bool}
    {ctx : LinearPackedContext} {r : RunResult}
    (hok : (run_addmm_context input quantized ctx).1 = Except.ok r) :
    (input.dim = 2 → r.output.sizes = [input.size 0, ctx_weight_width ctx]) ∧
    (¬input.dim = 2 → r.output.sizes = input.sizes.dropLast ++ [ctx_weight_width ctx]) := by
  unfold run_addmm_context run_addmm_core at hok
  dsimp only [LinearPackedContext.get_val] at hok
  split at hok
  · exact absurd hok (by simp)
  · rename_i input_arg_2d heq
    repeat' split at hok
    all_goals dsimp only at hok
    all_goals try exact Except.noConfusion hok
    all_goals first
      | (rename_i h2
         have hd2 : input.dim = 2 := h2
         rw [if_pos hd2] at heq
         have h2d : input = input_arg_2d := Except.ok.inj heq
         subst h2d
         have hr := Except.ok.inj hok
         subst hr
         exact ⟨fun _ => rfl, fun hne => absurd hd2 hne⟩)
      | (rename_i h2
         have hr := Except.ok.inj hok
         subst hr
         refine ⟨fun hd2 => absurd (show input.sizes.length = 2 from hd2) h2, fun _ => ?_⟩
         simp [convert_v, ctx_weight_width, range_map_getD_eq_dropLast,
           range_map_getElem_eq_dropLast])

/-- C8: for every input of rank `d > 2`, `run_addmm_context` flattens
the leading axes into their product to form a 2-D input (via
`reshape_to_2d`), and a successful invocation returns an output of rank
`d` whose first `d - 1` dimensions are the input's and whose last
dimension is the stored weight width; a rank-2 input yields the 2-D
output `(input_height, weight_width)` without reshaping. -/
theorem c8_shape_restoration (input : Tensor) (quantized : Bool)
    (ctx : LinearPackedContext) (r : RunResult) (hd : 2 < input.dim)
    (hok : (run_addmm_context input quantized ctx).1 = Except.ok r) :
    reshape_to_2d input = Except.ok
      { input with sizes := [input.sizes.dropLast.prod, input.sizes.getLastD 0] } ∧
    r.output.sizes = input.sizes.dropLast ++ [ctx_weight_width ctx] ∧
    r.output.sizes.length = input.dim ∧
    (∀ (input2 : Tensor) (r2 : RunResult), input2.dim = 2 →
      (run_addmm_context input2 quantized ctx).1 = Except.ok r2 →
      r2.output.sizes = [input2.size 0, ctx_weight_width ctx]) := by
  have hsz := (run_addmm_ok_sizes hok).2 (by omega)
  refine ⟨?_, hsz, ?_, ?_⟩
  · unfold reshape_to_2d
    rw [if_neg (by omega)]
  · rw [hsz]
    simp only [List.length_append, List.length_dropLast, List.length_cons,
      List.length_nil, Tensor.dim] at *
    omega
  · intro input2 r2 h2 hok2
    exact (run_addmm_ok_sizes hok2).1 h2

/-- Witness for C8 at a concrete successful run on a rank-3 input. -/
theorem c8_shape_restoration_witness :
    reshape_to_2d
      { sizes := [2, 2, 3], device := DeviceType.vulkan, dtype := ScalarType.Float,
        requires_grad := false, v_is_quantized := false,
        vlayout := GPUMemoryLayout.width_packed } = Except.ok
      { sizes := [[2, 2, 3].dropLast.prod, [2, 2, 3].getLastD 0],
        device := DeviceType.vulkan, dtype := ScalarType.Float,
        requires_grad := false, v_is_quantized := false,
        vlayout := GPUMemoryLayout.width_packed } ∧
    ({ output :=
        { sizes := [2, 2, 4], device := DeviceType.vulkan, dtype := ScalarType.Float,
          requires_grad := false, v_is_quantized := false,
          vlayout := GPUMemoryLayout.channels_packed }
       job :=
        { shader := KernelName.mm, global_size := (1, 1, 1),
          local_size := (8, 8, 1) } } : RunResult).output.sizes =
      [2, 2, 3].dropLast ++
        [ctx_weight_width
          { packed := [IVal.tens
              { sizes := [2, 4, 2], device := DeviceType.vulkan, dtype := ScalarType.Float,
                requires_grad := false, v_is_quantized := false,
                vlayout := GPUMemoryLayout.height_packed },
            IVal.tens
              { sizes := [1], device := DeviceType.vulkan, dtype := ScalarType.Float,
                requires_grad := false, v_is_quantized := false,
                vlayout := GPUMemoryLayout.channels_packed },
            IVal.ints [3, 4], IVal.flag false], unpacked := [] }] ∧
    ({ output :=
        { sizes := [2, 2, 4], device := DeviceType.vulkan, dtype := ScalarType.Float,
          requires_grad := false, v_is_quantized := false,
          vlayout := GPUMemoryLayout.channels_packed }
       job :=
        { shader := KernelName.mm, global_size := (1, 1, 1),
          local_size := (8, 8, 1) } } : RunResult).output.sizes.length =
      Tensor.dim
        { sizes := [2, 2, 3], device := DeviceType.vulkan, dtype := ScalarType.Float,
          requires_grad := false, v_is_quantized := false,
          vlayout := GPUMemoryLayout.width_packed } ∧
    (∀ (input2 : Tensor) (r2 : RunResult), input2.dim = 2 →
      (run_addmm_context input2 false
        { packed := [IVal.tens
            { sizes := [2, 4, 2], device := DeviceType.vulkan, dtype := ScalarType.Float,
              requires_grad := false, v_is_quantized := false,
              vlayout := GPUMemoryLayout.height_packed },
          IVal.tens
            { sizes := [1], device := DeviceType.vulkan, dtype := ScalarType.Float,
              requires_grad := false, v_is_quantized := false,
              vlayout := GPUMemoryLayout.channels_packed },
          IVal.ints [3, 4], IVal.flag false], unpacked := [] }).1 = Except.ok r2 →
      r2.output.sizes = [input2.size 0,
        ctx_weight_width
          { packed := [IVal.tens
              { sizes := [2, 4, 2], device := DeviceType.vulkan, dtype := ScalarType.Float,
                requires_grad := false, v_is_quantized := false,
                vlayout := GPUMemoryLayout.height_packed },
            IVal.tens
              { sizes := [1], device := DeviceType.vulkan, dtype := ScalarType.Float,
                requires_grad := false, v_is_quantized := false,
                vlayout := GPUMemoryLayout.channels_packed },
            IVal.ints [3, 4], IVal.flag false], unpacked := [] }]) :=
  c8_shape_restoration _ false _ _ (by decide) (by rfl)

/-- C10: at the unbatched runner a host-resident input is never rejected
for device placement: the run on a CPU input equals the run on the same
input transferred to the Vulkan device, the tensor produced by the input
staging prefix (the one `usable` is invoked on) is always
device-resident, and for a device-resident tensor the `usable` check
reduces to the rank, dtype, shape and gradient conditions alone. -/
theorem c10_host_input_not_rejected_for_device (input : Tensor) (quantized : Bool)
    (ctx : LinearPackedContext) (ws : List Nat) (t : Tensor)
    (hcpu : input.device = DeviceType.cpu) :
    run_addmm_context input quantized ctx =
      run_addmm_context input.vulkan quantized ctx ∧
    (addmm_checked_input input = Except.ok t → t.device = DeviceType.vulkan) ∧
    (t.device = DeviceType.vulkan →
      (usable t ws false = true ↔
        (t.dim = 2 ∧
          (t.dtype = ScalarType.Float ∨
            (t.v_is_quantized = true ∧
              (t.dtype = ScalarType.QUInt8 ∨ t.dtype = ScalarType.QInt8))) ∧
          t.size 1 = ws.getD 0 0 ∧ t.requires_grad = false))) := by
  refine ⟨?_, ?_, ?_⟩
  · by_cases h2 : input.sizes.length = 2
    · simp [run_addmm_context, Tensor.vulkan, Tensor.is_vulkan, Tensor.is_cpu,
        Tensor.dim, hcpu, h2]
    · by_cases hlt : input.sizes.length < 2
      · simp [run_addmm_context, reshape_to_2d, Tensor.vulkan, Tensor.is_vulkan,
          Tensor.is_cpu, Tensor.dim, hcpu, h2, hlt]
      · simp [run_addmm_context, reshape_to_2d, Tensor.vulkan, Tensor.is_vulkan,
          Tensor.is_cpu, Tensor.dim, hcpu, h2, hlt]
  · intro h
    unfold addmm_checked_input at h
    split at h
    · exact Except.noConfusion h
    · rename_i t2 heq
      have ht := Except.ok.inj h
      subst ht
      by_cases hv : t2.is_vulkan = true
      · have hdev : t2.device = DeviceType.vulkan := by
          simpa [Tensor.is_vulkan] using hv
        simp [hv, hdev]
      · simp [hv, Tensor.vulkan]
  · intro hdev
    simp only [usable, if_false, Bool.false_eq_true, convert, Bool.and_eq_true,
      Bool.or_eq_true, decide_eq_true_eq, Bool.not_eq_true', Bool.and_true]
    simp [hdev, Tensor.dim]
    tauto

/-- Witness for C10 at a concrete host input. -/
theorem c10_host_input_not_rejected_for_device_witness :
    run_addmm_context
      { sizes := [2, 3], device := DeviceType.cpu, dtype := ScalarType.Float,
        requires_grad := false, v_is_quantized := false,
        vlayout := GPUMemoryLayout.channels_packed } false
      { packed := [], unpacked := [] } =
      run_addmm_context
        (Tensor.vulkan
          { sizes := [2, 3], device := DeviceType.cpu, dtype := ScalarType.Float,
            requires_grad := false, v_is_quantized := false,
            vlayout := GPUMemoryLayout.channels_packed }) false
        { packed := [], unpacked := [] } ∧
    (addmm_checked_input
        { sizes := [2, 3], device := DeviceType.cpu, dtype := ScalarType.Float,
          requires_grad := false, v_is_quantized := false,
          vlayout := GPUMemoryLayout.channels_packed } = Except.ok
        { sizes := [2, 3], device := DeviceType.vulkan, dtype := ScalarType.Float,
          requires_grad := false, v_is_quantized := false,
          vlayout := GPUMemoryLayout.channels_packed } →
      Tensor.device
        { sizes := [2, 3], device := DeviceType.vulkan, dtype := ScalarType.Float,
          requires_grad := false, v_is_quantized := false,
          vlayout := GPUMemoryLayout.channels_packed } = DeviceType.vulkan) ∧
    (Tensor.device
        { sizes := [2, 3], device := DeviceType.vulkan, dtype := ScalarType.Float,
          requires_grad := false, v_is_quantized := false,
          vlayout := GPUMemoryLayout.channels_packed } = DeviceType.vulkan →
      (usable
          { sizes := [2, 3], device := DeviceType.vulkan, dtype := ScalarType.Float,
            requires_grad := false, v_is_quantized := false,
            vlayout := GPUMemoryLayout.channels_packed } [3, 4] false = true ↔
        (Tensor.dim
            { sizes := [2, 3], device := DeviceType.vulkan, dtype := ScalarType.Float,
              requires_grad := false, v_is_quantized := false,
              vlayout := GPUMemoryLayout.channels_packed } = 2 ∧
          (Tensor.dtype
              { sizes := [2, 3], device := DeviceType.vulkan, dtype := ScalarType.Float,
                requires_grad := false, v_is_quantized := false,
                vlayout := GPUMemoryLayout.channels_packed } = ScalarType.Float ∨
            (Tensor.v_is_quantized
                { sizes := [2, 3], device := DeviceType.vulkan, dtype := ScalarType.Float,
                  requires_grad := false, v_is_quantized := false,
                  vlayout := GPUMemoryLayout.channels_packed } = true ∧
              (Tensor.dtype
                  { sizes := [2, 3], device := DeviceType.vulkan, dtype := ScalarType.Float,
                    requires_grad := false, v_is_quantized := false,
                    vlayout := GPUMemoryLayout.channels_packed } = ScalarType.QUInt8 ∨
                Tensor.dtype
                  { sizes := [2, 3], device := DeviceType.vulkan, dtype := ScalarType.Float,
                    requires_grad := false, v_is_quantized := false,
                    vlayout := GPUMemoryLayout.channels_packed } = ScalarType.QInt8))) ∧
          Tensor.size
            { sizes := [2, 3], device := DeviceType.vulkan, dtype := ScalarType.Float,
              requires_grad := false, v_is_quantized := false,
              vlayout := GPUMemoryLayout.channels_packed } 1 = [3, 4].getD 0 0 ∧
          Tensor.requires_grad
            { sizes := [2, 3], device := DeviceType.vulkan, dtype := ScalarType.Float,
              requires_grad := false, v_is_quantized := false,
              vlayout := GPUMemoryLayout.channels_packed } = false))) :=
  c10_host_input_not_rejected_for_device _ false _ [3, 4] _ rfl

/-- Shared extraction lemma: a true `available` over a present bias
forces the bias to be float. -/
theorem available_bias_float {api : Bool} {w : Tensor} {bb : Tensor} {use_batch : Bool}
    (h : available api w (some bb) use_batch = true) : bb.dtype = ScalarType.Float := by
  unfold available at h
  split at h
  · exact absurd h (by simp)
  · split at h
    · unfold available_check_with_batch at h
      dsimp only at h
      split at h
      · exact absurd h (by simp)
      · simp only [Bool.and_eq_true, decide_eq_true_eq] at h
        tauto
    · dsimp only at h
      split at h
      · exact absurd h (by simp)
      · simp only [Bool.and_eq_true, decide_eq_true_eq] at h
        tauto

/-- Shared helper: under the weight-side `available` facts,
`pack_weights` succeeds exactly unless the non-quantized unbatched
height-packing path meets a device-resident width-packed weight (whose
relayout assertion then fails). -/
theorem pack_weights_ok_state {w : Tensor} {use_batch : Bool}
    (wf : weight_requirements w use_batch) :
    (∃ pw, pack_weights w use_batch = Except.ok pw) ↔
      ¬(w.is_quantized = false ∧ use_batch = false ∧ w.device = DeviceType.vulkan ∧
        w.vlayout = GPUMemoryLayout.width_packed) := by
  cases use_batch
  · simp only [weight_requirements, Bool.false_eq_true, if_false] at wf
    obtain ⟨hdim, h0, h1, hdev, hdt, hg⟩ := wf
    rcases hdev with hdev | hdev
    · by_cases hq : w.is_quantized = true
      · simp [pack_weights, hq]
      · have hq' : w.is_quantized = false := by
          revert hq; cases w.is_quantized <;> simp
        simp [pack_weights, pack_weights_using_height_packing, hq', hdim,
          Tensor.is_cpu, Tensor.is_vulkan, Tensor.vulkan, convert, hdev]
    · have hq' : w.is_quantized = false := by
        simp [Tensor.is_quantized, hdev]
      cases hvl : w.vlayout <;>
        simp [pack_weights, pack_weights_using_height_packing, hq', hdim,
          Tensor.is_cpu, Tensor.is_vulkan, Tensor.vulkan, convert, hdev, hvl]
  · simp only [weight_requirements, if_true] at wf
    obtain ⟨hdim, h0, h1, h2, hdev, hdt, hg⟩ := wf
    have hdim' : w.sizes.length = 3 := hdim
    simp [pack_weights, hdim', hdt, Tensor.dim]

/-- Shared helper: under a true `available`, `pack_biases` always
succeeds. -/
theorem pack_biases_ok_of_available {api : Bool} {w : Tensor} {b : Option Tensor}
    {use_batch : Bool} (h : available api w b use_batch = true) :
    ∃ pb, pack_biases w b use_batch = Except.ok pb := by
  cases b with
  | none => exact ⟨_, rfl⟩
  | some bb =>
    by_cases hv : bb.is_vulkan = true
    · simp [pack_biases, hv]
    · have hf : bb.dtype = ScalarType.Float := available_bias_float h
      cases use_batch <;> simp [pack_biases, hv, hf]

/-- C9 counterexample: a rank-2 float weight already resident on the
Vulkan device in width-packed layout passes `available`, yet the
constructor raises (the height-packing relayout assertion fires), so
"raises iff `available` is false" fails. -/
theorem c9_counterexample :
    available true
      { sizes := [2, 2], device := DeviceType.vulkan, dtype := ScalarType.Float,
        requires_grad := false, v_is_quantized := false,
        vlayout := GPUMemoryLayout.width_packed }
      none false = true ∧
    LinearPackedContext.make true false
      { sizes := [2, 2], device := DeviceType.vulkan, dtype := ScalarType.Float,
        requires_grad := false, v_is_quantized := false,
        vlayout := GPUMemoryLayout.width_packed }
      none false =
      Except.error "After packing, the v_weight must be in TENSOR_HEIGHT_PACKED format" :=
  ⟨by decide, by rfl⟩

/-- C9 (amended): the constructor raises exactly when `available` is
false or the non-quantized unbatched weight is device-resident in
width-packed layout (failing the height-packing assertion); on success
it stores the packed weight, the packed bias, the original unpacked
weight sizes and the bias-defined flag, and retains the unpacked weight
and bias exactly when the release-weights-when-prepacking setting is
off. -/
theorem c9_context_construction (api rel : Bool) (w : Tensor) (b : Option Tensor)
    (ub : Bool) :
    ((∃ e, LinearPackedContext.make api rel w b ub = Except.error e) ↔
      (available api w b ub = false ∨
        (w.is_quantized = false ∧ ub = false ∧ w.device = DeviceType.vulkan ∧
          w.vlayout = GPUMemoryLayout.width_packed))) ∧
    (∀ ctx, LinearPackedContext.make api rel w b ub = Except.ok ctx →
      ∃ pw pb, pack_weights w ub = Except.ok pw ∧ pack_biases w b ub = Except.ok pb ∧
        ctx.packed = [IVal.tens (convert_v pw), IVal.tens (convert_v pb),
          IVal.ints w.sizes, IVal.flag b.isSome] ∧
        ctx.unpacked = (if rel then [] else [IVal.tens w, IVal.optTens b])) := by
  by_cases hav : available api w b ub = true
  · have wf := available_weight_facts hav
    have hpw := pack_weights_ok_state wf
    obtain ⟨pb, hpbok⟩ := pack_biases_ok_of_available hav
    constructor
    · constructor
      · rintro ⟨e, he⟩
        right
        by_contra hcond
        obtain ⟨pw, hpwok⟩ := hpw.mpr hcond
        unfold LinearPackedContext.make at he
        rw [if_neg (by simp [hav]), hpwok, hpbok] at he
        exact Except.noConfusion he
      · rintro (hfalse | hcond)
        · rw [hav] at hfalse
          exact absurd hfalse (by simp)
        · have hne : ¬∃ pw, pack_weights w ub = Except.ok pw := by
            rw [hpw]
            simp [hcond]
          obtain ⟨e1, he1⟩ : ∃ e1, pack_weights w ub = Except.error e1 := by
            cases hpw' : pack_weights w ub with
            | error e1 => exact ⟨e1, rfl⟩
            | ok pw => exact absurd ⟨pw, hpw'⟩ hne
          refine ⟨e1, ?_⟩
          unfold LinearPackedContext.make
          rw [if_neg (by simp [hav]), he1, hpbok]
    · intro ctx hctx
      unfold LinearPackedContext.make at hctx
      rw [if_neg (by simp [hav])] at hctx
      cases hpw' : pack_weights w ub with
      | error e1 =>
        rw [hpw', hpbok] at hctx
        exact Except.noConfusion hctx
      | ok pw =>
        rw [hpw', hpbok] at hctx
        have hc := Except.ok.inj hctx
        subst hc
        refine ⟨pw, pb, rfl, hpbok, rfl, ?_⟩
        cases rel <;> simp
  · have havf : available api w b ub = false := by
      revert hav; cases available api w b ub <;> simp
    have hmk : LinearPackedContext.make api rel w b ub =
        Except.error "Vulkan Linear not available!" := by
      unfold LinearPackedContext.make
      rw [if_pos (by simp [havf])]
    constructor
    · constructor
      · intro _
        exact Or.inl havf
      · intro _
        exact ⟨_, hmk⟩
    · intro ctx hctx
      rw [hmk] at hctx
      exact Except.noConfusion hctx

/-- Witness for the amended C9 at a concrete instance. -/
theorem c9_context_construction_witness :
    ((∃ e, LinearPackedContext.make true false
        { sizes := [2, 3], device := DeviceType.cpu, dtype := ScalarType.Float,
          requires_grad := false, v_is_quantized := false,
          vlayout := GPUMemoryLayout.channels_packed }
        none false = Except.error e) ↔
      (available true
          { sizes := [2, 3], device := DeviceType.cpu, dtype := ScalarType.Float,
            requires_grad := false, v_is_quantized := false,
            vlayout := GPUMemoryLayout.channels_packed } none false = false ∨
        (Tensor.is_quantized
            { sizes := [2, 3], device := DeviceType.cpu, dtype := ScalarType.Float,
              requires_grad := false, v_is_quantized := false,
              vlayout := GPUMemoryLayout.channels_packed } = false ∧
          false = false ∧
          Tensor.device
            { sizes := [2, 3], device := DeviceType.cpu, dtype := ScalarType.Float,
              requires_grad := false, v_is_quantized := false,
              vlayout := GPUMemoryLayout.channels_packed } = DeviceType.vulkan ∧
          Tensor.vlayout
            { sizes := [2, 3], device := DeviceType.cpu, dtype := ScalarType.Float,
              requires_grad := false, v_is_quantized := false,
              vlayout := GPUMemoryLayout.channels_packed } =
            GPUMemoryLayout.width_packed))) ∧
    (∀ ctx, LinearPackedContext.make true false
        { sizes := [2, 3], device := DeviceType.cpu, dtype := ScalarType.Float,
          requires_grad := false, v_is_quantized := false,
          vlayout := GPUMemoryLayout.channels_packed }
        none false = Except.ok ctx →
      ∃ pw pb, pack_weights
          { sizes := [2, 3], device := DeviceType.cpu, dtype := ScalarType.Float,
            requires_grad := false, v_is_quantized := false,
            vlayout := GPUMemoryLayout.channels_packed } false = Except.ok pw ∧
        pack_biases
          { sizes := [2, 3], device := DeviceType.cpu, dtype := ScalarType.Float,
            requires_grad := false, v_is_quantized := false,
            vlayout := GPUMemoryLayout.channels_packed } none false = Except.ok pb ∧
        ctx.packed = [IVal.tens (convert_v pw), IVal.tens (convert_v pb),
          IVal.ints (Tensor.sizes
            { sizes := [2, 3], device := DeviceType.cpu, dtype := ScalarType.Float,
              requires_grad := false, v_is_quantized := false,
              vlayout := GPUMemoryLayout.channels_packed }),
          IVal.flag (Option.isSome (none : Option Tensor))] ∧
        ctx.unpacked = (if false then []
          else [IVal.tens
              { sizes := [2, 3], device := DeviceType.cpu, dtype := ScalarType.Float,
                requires_grad := false, v_is_quantized := false,
                vlayout := GPUMemoryLayout.channels_packed },
            IVal.optTens (none : Option Tensor)])) :=
  c9_context_construction true false _ none false

end ops
